import Mathlib

/-!
Shallow embedding of the connection and session management layer of the
rtgg-bot client (src/index.ts, src/websocket/client.ts, src/types.ts),
together with theorems checking the specification claims about it.

Machine time instants (Date.getTime values) are modelled as Int
milliseconds; the JS Map objects used for the socket registry and the
race-details cache are modelled as insertion-ordered association lists.
-/

namespace Rtgg

/-! ## Wire constants (types.ts) -/

/-- Wire discriminators of inbound frames, from enum RTMessageTypes in
types.ts.  Note that CHAT_PIN and CHAT_UNPIN are declared with the same
string value in the source. -/
def RTMessageTypes.CHAT_HISTORY : String := "chat.history"

def RTMessageTypes.CHAT_MESSAGE : String := "chat.message"

def RTMessageTypes.CHAT_DM : String := "chat.dm"

def RTMessageTypes.CHAT_PIN : String := "chat.pin"

def RTMessageTypes.CHAT_UNPIN : String := "chat.pin"

def RTMessageTypes.CHAT_DELETE : String := "chat.delete"

def RTMessageTypes.CHAT_PURGE : String := "chat.purge"

def RTMessageTypes.ERROR : String := "error"

def RTMessageTypes.PONG : String := "pong"

def RTMessageTypes.RACE_DATA : String := "race.data"

def RTMessageTypes.RACE_RENDERS : String := "race.renders"

/-- Outbound command kinds, from enum RTPacketTypes in types.ts (only the
kinds the facade actually sends are listed). -/
def RTPacketTypes.MESSAGE : String := "message"

def RTPacketTypes.CANCEL : String := "cancel"

/-- Race status strings, from enum RaceStatusText in types.ts. -/
def RaceStatusText.CANCELLED : String := "cancelled"

/-- An outbound frame: interface RTAction of types.ts.  The optional data
object is kept opaque as a string. -/
structure RTAction where
  action : String
  data : Option String
deriving DecidableEq, Repr

/-- A decoded inbound frame: interface RTMessage of types.ts.  Only the
type tag is inspected by the client; the remaining JSON fields are kept
opaque in the payload component, which dispatch must carry through
unchanged. -/
structure RTMessage where
  type : String
  payload : String
deriving DecidableEq, Repr

/-! ## Inbound demultiplexing (client.ts, handleMessage) -/

/-- The typed events a WebSocketClient can emit from handleMessage (the
typed part of interface WebSocketEvents in client.ts; the connection
lifecycle events ready / close / socket error / raw message are modelled
separately). -/
inductive TypedEvent where
  | chatHistory (m : RTMessage)
  | chatMessage (m : RTMessage)
  | chatPin (m : RTMessage)
  | chatUnpin (m : RTMessage)
  | chatDelete (m : RTMessage)
  | chatPurge (m : RTMessage)
  | rtError (m : RTMessage)
  | raceData (m : RTMessage)
deriving DecidableEq, Repr

/-- handleMessage of client.ts: a switch on message.type.  A JS switch
compares case labels with strict equality top to bottom, so it is embedded
as a first-match chain of equality tests in source order; each reachable
case emits the listed events and breaks.  The default case throws. -/
def handleMessage (m : RTMessage) : Except String (List TypedEvent) :=
  if m.type = RTMessageTypes.CHAT_DELETE then .ok [.chatDelete m]
  else if m.type = RTMessageTypes.CHAT_DM then .ok []
  else if m.type = RTMessageTypes.CHAT_HISTORY then .ok [.chatHistory m]
  else if m.type = RTMessageTypes.CHAT_MESSAGE then .ok [.chatMessage m]
  else if m.type = RTMessageTypes.CHAT_PIN then .ok [.chatPin m]
  else if m.type = RTMessageTypes.CHAT_UNPIN then .ok [.chatUnpin m]
  else if m.type = RTMessageTypes.CHAT_PURGE then .ok [.chatPurge m]
  else if m.type = RTMessageTypes.ERROR then .ok [.rtError m]
  else if m.type = RTMessageTypes.PONG then .ok []
  else if m.type = RTMessageTypes.RACE_DATA then .ok [.raceData m]
  else if m.type = RTMessageTypes.RACE_RENDERS then .ok []
  else .error ("Unknown message type: " ++ m.type)

/-- The wire discriminators handled by some case of the switch. -/
def knownMessageTypes : List String :=
  [RTMessageTypes.CHAT_DELETE, RTMessageTypes.CHAT_DM,
   RTMessageTypes.CHAT_HISTORY, RTMessageTypes.CHAT_MESSAGE,
   RTMessageTypes.CHAT_PIN, RTMessageTypes.CHAT_UNPIN,
   RTMessageTypes.CHAT_PURGE, RTMessageTypes.ERROR, RTMessageTypes.PONG,
   RTMessageTypes.RACE_DATA, RTMessageTypes.RACE_RENDERS]

/-! ## Race socket session state (client.ts, WebSocketClient) -/

/-- The mutable state of one WebSocketClient of client.ts: the ready flag
and the FIFO messageQueue, plus a ghost log of the frames handed to
socket.send in order (each frame is serialized with JSON.stringify at the
send site; the log records the actions themselves). -/
structure WebSocketClient where
  ready : Bool
  messageQueue : List RTAction
  sent : List RTAction
deriving DecidableEq, Repr

/-- A freshly constructed WebSocketClient: ready is false and the queue is
empty (field initializers of the class in client.ts). -/
def WebSocketClient.new : WebSocketClient :=
  { ready := false, messageQueue := [], sent := [] }

/-- sendMessage of client.ts: when not ready, push the action onto the
queue and return; otherwise serialize and transmit immediately. -/
def WebSocketClient.sendMessage (w : WebSocketClient) (m : RTAction) :
    WebSocketClient :=
  if w.ready = false then { w with messageQueue := w.messageQueue ++ [m] }
  else { w with sent := w.sent ++ [m] }

/-- The socket open handler installed in the WebSocketClient constructor:
emits ready, sets ready to true, transmits every queued action in queue
order with forEach, then clears the queue. -/
def WebSocketClient.onOpen (w : WebSocketClient) : WebSocketClient :=
  { w with ready := true, sent := w.sent ++ w.messageQueue,
           messageQueue := [] }

/-! ## JS Map model -/

/-- Map.prototype.get, on an insertion-ordered association list. -/
def mapGet (k : String) : List (String × β) → Option β
  | [] => none
  | (k2, v) :: rest => if k2 = k then some v else mapGet k rest

/-- Map.prototype.set: replace in place when the key is present, append
otherwise. -/
def mapSet (k : String) (v : β) : List (String × β) → List (String × β)
  | [] => [(k, v)]
  | (k2, v2) :: rest =>
      if k2 = k then (k, v) :: rest else (k2, v2) :: mapSet k v rest

/-- Apply f to the value stored under k, leaving every other entry and the
key order unchanged (mutation of the object returned by Map.get). -/
def mapUpdate (k : String) (f : β → β) : List (String × β) → List (String × β)
  | [] => []
  | (k2, v) :: rest =>
      if k2 = k then (k2, f v) :: mapUpdate k f rest
      else (k2, v) :: mapUpdate k f rest

/-! ## Facade state (index.ts, RacetimeClient) -/

/-- The Credentials record of index.ts, as returned by the token
endpoint. -/
structure Credentials where
  access_token : String
  expires_in : Int
  token_type : String
  scope : String
deriving DecidableEq, Repr

/-- RaceStatus of types.ts (only the machine-readable value is read by the
client). -/
structure RaceStatus where
  value : String
deriving DecidableEq, Repr

/-- The fields of interface RaceDetails of types.ts that the connection
layer reads: the status, the bot socket endpoint, and the cache stamp
last_updated; the many remaining fields are passive data carried in rest
and never inspected by the code under proof. -/
structure RaceDetails where
  status : RaceStatus
  websocket_bot_url : String
  last_updated : Int
  rest : String
deriving DecidableEq, Repr

/-- The mutable state of the RacetimeClient facade of index.ts, together
with ghost observation counters: tokenExchanges counts POSTs to the token
endpoint, snapshotGets counts GETs to a race data endpoint, connections
counts WebSocket objects constructed, decodeFailures counts snapshot
bodies that failed to decode (the console.error path), and emitted logs
the events emitted on the client. -/
structure RacetimeClient where
  auth : Option Credentials
  authExpireTime : Int
  sockets : List (String × WebSocketClient)
  raceDetailsCache : List (String × RaceDetails)
  emitted : List String
  tokenExchanges : Nat
  snapshotGets : Nat
  connections : Nat
  decodeFailures : Nat
deriving DecidableEq, Repr

/-- The state established by the RacetimeClient constructor, before the
fire-and-forget authorize call it schedules has completed: empty maps and
an authExpireTime moved back to the year 2000 to force reauthorization
(the concrete instant is a parameter since the source derives it from the
current date). -/
def RacetimeClient.init (t2000 : Int) : RacetimeClient :=
  { auth := none, authExpireTime := t2000, sockets := [],
    raceDetailsCache := [], emitted := [], tokenExchanges := 0,
    snapshotGets := 0, connections := 0, decodeFailures := 0 }

/-! ## Credential manager (index.ts, authorize / authenticatedFetch) -/

/-- authorize of index.ts.  The POST to the token endpoint is modelled by
its outcome resp: some c when the response is OK with decoded body c, none
when it is not OK.  On success the whole Credentials record replaces
this.auth and authExpireTime becomes now plus expires_in seconds; on
failure an auth error event is emitted and false is returned. -/
def RacetimeClient.authorize (st : RacetimeClient) (now : Int)
    (resp : Option Credentials) : RacetimeClient × Bool :=
  match resp with
  | some c =>
      ({ st with auth := some c,
                 authExpireTime := now + c.expires_in * 1000,
                 tokenExchanges := st.tokenExchanges + 1 }, true)
  | none =>
      ({ st with emitted := st.emitted ++ ["auth error"],
                 tokenExchanges := st.tokenExchanges + 1 }, false)

/-- The check-then-refresh gate at the top of authenticatedFetch (and
repeated verbatim in joinRaceRoom): when authExpireTime is not strictly in
the future, authorize is awaited and a false result raises.  The state is
returned alongside the outcome so that the auth error event emitted before
the raise stays observable. -/
def RacetimeClient.ensureAuthValid (st : RacetimeClient) (now : Int)
    (resp : Option Credentials) : RacetimeClient × Except String Unit :=
  if st.authExpireTime ≤ now then
    match st.authorize now resp with
    | (st2, true) => (st2, .ok ())
    | (st2, false) => (st2, .error "Unable to refresh access_token!")
  else (st, .ok ())

/-! ## Race snapshot cache (index.ts, fetchRaceData) -/

/-- Outcome of the authenticated GET to a race data endpoint: the response
is not OK, or it is OK but the body fails to decode as RaceDetails, or it
is OK with decoded body d. -/
inductive HttpRaceResponse where
  | notOk
  | badBody
  | okBody (d : RaceDetails)
deriving DecidableEq, Repr

/-- The cache guard at the top of fetchRaceData: when the cache holds the
URL and the entry is younger than 30 seconds it is returned, otherwise the
entry counts as absent. -/
def freshEntry (cache : List (String × RaceDetails)) (raceUrl : String)
    (now : Int) : Option RaceDetails :=
  match mapGet raceUrl cache with
  | some d => if d.last_updated + 1000 * 30 > now then some d else none
  | none => none

/-- fetchRaceData of index.ts: return the fresh cache entry when there is
one; otherwise issue the authenticated GET (raising when the auth refresh
fails), and on an OK, decodable body stamp last_updated with now, store
the result and return it; a non-OK status or an undecodable body yields
null without raising (the decode failure is logged). -/
def RacetimeClient.fetchRaceData (st : RacetimeClient) (raceUrl : String)
    (now : Int) (authResp : Option Credentials) (resp : HttpRaceResponse) :
    RacetimeClient × Except String (Option RaceDetails) :=
  match freshEntry st.raceDetailsCache raceUrl now with
  | some d => (st, .ok (some d))
  | none =>
    match st.ensureAuthValid now authResp with
    | (st2, .error e) => (st2, .error e)
    | (st2, .ok ()) =>
      let st3 := { st2 with snapshotGets := st2.snapshotGets + 1 }
      match resp with
      | .okBody d =>
          let d2 := { d with last_updated := now }
          ({ st3 with
               raceDetailsCache := mapSet raceUrl d2 st3.raceDetailsCache },
           .ok (some d2))
      | .badBody =>
          ({ st3 with decodeFailures := st3.decodeFailures + 1 }, .ok none)
      | .notOk => (st3, .ok none)

/-! ## Session registry (index.ts, joinRaceRoom and the close handler) -/

/-- Result of the synchronous part of joinRaceRoom: either a session for
the URL already existed (the promise resolves true immediately) or a new
session was created and its promise is pending on the first ready or
socket error event. -/
inductive JoinOutcome where
  | alreadyJoined
  | created
deriving DecidableEq, Repr

/-- joinRaceRoom of index.ts, synchronous part: when no session exists for
roomUrl, run the auth gate (raising when the refresh fails), construct a
WebSocketClient (opening one socket connection) and store it under
roomUrl; when a session already exists, return true at once without
touching any state. -/
def RacetimeClient.joinRaceRoom (st : RacetimeClient) (roomUrl : String)
    (now : Int) (authResp : Option Credentials) :
    RacetimeClient × Except String JoinOutcome :=
  if (mapGet roomUrl st.sockets).isSome = false then
    match st.ensureAuthValid now authResp with
    | (st2, .error e) => (st2, .error e)
    | (st2, .ok ()) =>
        ({ st2 with sockets := mapSet roomUrl WebSocketClient.new st2.sockets,
                    connections := st2.connections + 1 }, .ok .created)
  else (st, .ok .alreadyJoined)

/-- The first connection-lifecycle outcome of a freshly created session:
the socket open event fires, or a transport error fires. -/
inductive ConnectOutcome where
  | ready
  | socketError (e : String)
deriving DecidableEq, Repr

/-- await joinRaceRoom: an existing session resolves true immediately; a
new session resolves true on its first ready event (by which time its open
handler has run) and rejects with the error on its first socket error
event.  Close events do not settle the promise. -/
def RacetimeClient.joinRaceRoomAwaited (st : RacetimeClient)
    (roomUrl : String) (now : Int) (authResp : Option Credentials)
    (conn : ConnectOutcome) : RacetimeClient × Except String Bool :=
  match st.joinRaceRoom roomUrl now authResp with
  | (st2, .error e) => (st2, .error e)
  | (st2, .ok .alreadyJoined) => (st2, .ok true)
  | (st2, .ok .created) =>
    match conn with
    | .ready =>
        ({ st2 with sockets := mapUpdate roomUrl WebSocketClient.onOpen
                                  st2.sockets }, .ok true)
    | .socketError e => (st2, .error e)

/-- What the close handling code does beyond logging: nothing, or an
attempted call of the named method on the session object. -/
inductive CloseAction where
  | noop
  | methodCall (name : String)
deriving DecidableEq, Repr

/-- The close handler installed by joinRaceRoom on each new session: when
the close code is above 1000 it warns and calls socket.reconnect, and
otherwise does nothing. -/
def closeHandlerAction (code : Int) : CloseAction :=
  if code > 1000 then .methodCall "reconnect" else .noop

/-- The methods the class WebSocketClient of client.ts defines. -/
def webSocketClientOwnMethods : List String :=
  ["constructor", "sendMessage", "handleMessage"]

/-- The methods WebSocketClient inherits from TypedEmitter, which simply
retypes the Node EventEmitter interface. -/
def typedEmitterMethods : List String :=
  ["on", "once", "off", "emit", "addListener", "removeListener",
   "removeAllListeners", "prependListener", "prependOnceListener",
   "listeners", "rawListeners", "listenerCount", "eventNames",
   "setMaxListeners", "getMaxListeners"]

/-- Whether a WebSocketClient object has a callable method of the given
name, own or inherited. -/
def webSocketClientHasMethod (name : String) : Bool :=
  webSocketClientOwnMethods.contains name ||
    typedEmitterMethods.contains name

/-- The combined effect on the client of a close(code, reason) event from
any session: the listener in client.ts logs and re-emits the event, and
the handler installed by joinRaceRoom warns and attempts the reconnect
call when the code is above 1000.  Neither listener touches the sockets
map, the caches, or the session queue, so the state is returned
unchanged. -/
def RacetimeClient.onSocketClose (st : RacetimeClient) (code : Int) :
    RacetimeClient × CloseAction :=
  (st, closeHandlerAction code)

/-! ## cancelRace (index.ts) -/

/-- The sendMessage step of cancelRace: this.sockets.get(url).sendMessage
with the cancel action. -/
def RacetimeClient.sendCancel (st : RacetimeClient) (url : String) :
    RacetimeClient :=
  { st with
      sockets := mapUpdate url
        (fun w =>
          w.sendMessage { action := RTPacketTypes.CANCEL, data := none })
        st.sockets }

/-- cancelRace of index.ts: fetch the snapshot for raceUrl, join the room
at its websocket_bot_url, send a cancel command on that session, fetch the
snapshot again through the cache, and report true exactly when its status
value is cancelled.  A null snapshot makes the subsequent property read
throw a TypeError, modelled as an error result. -/
def RacetimeClient.cancelRace (st : RacetimeClient) (raceUrl : String)
    (now1 : Int) (authResp1 : Option Credentials) (resp1 : HttpRaceResponse)
    (authRespJ : Option Credentials) (conn : ConnectOutcome)
    (now2 : Int) (authResp2 : Option Credentials) (resp2 : HttpRaceResponse) :
    RacetimeClient × Except String Bool :=
  match st.fetchRaceData raceUrl now1 authResp1 resp1 with
  | (st1, .error e) => (st1, .error e)
  | (st1, .ok none) =>
      (st1, .error "TypeError: cannot read websocket_bot_url of null")
  | (st1, .ok (some d)) =>
    match st1.joinRaceRoomAwaited d.websocket_bot_url now1 authRespJ conn with
    | (st2, .error e) => (st2, .error e)
    | (st2, .ok _) =>
      match (st2.sendCancel d.websocket_bot_url).fetchRaceData raceUrl now2
              authResp2 resp2 with
      | (st4, .error e) => (st4, .error e)
      | (st4, .ok none) =>
          (st4, .error "TypeError: cannot read status of null")
      | (st4, .ok (some nd)) =>
          (st4, .ok (nd.status.value == RaceStatusText.CANCELLED))

/-! ## Operation traces over the client -/

/-- One externally triggered step on the client state: the synchronous
part of joinRaceRoom, a fetchRaceData call, or one of the socket
lifecycle callbacks of a session (open, a send on a session, close). -/
inductive ClientOp where
  | join (url : String) (now : Int) (authResp : Option Credentials)
  | fetchRace (url : String) (now : Int) (authResp : Option Credentials)
      (resp : HttpRaceResponse)
  | socketOpen (url : String)
  | socketSend (url : String) (m : RTAction)
  | socketClose (code : Int)

/-- The state reached after one client operation (results and raised
errors are dropped, only the state evolution is kept). -/
def RacetimeClient.stepClient (st : RacetimeClient) : ClientOp → RacetimeClient
  | .join url now a => (st.joinRaceRoom url now a).1
  | .fetchRace url now a r => (st.fetchRaceData url now a r).1
  | .socketOpen url =>
      { st with sockets := mapUpdate url WebSocketClient.onOpen st.sockets }
  | .socketSend url m =>
      { st with sockets := mapUpdate url (fun w => w.sendMessage m) st.sockets }
  | .socketClose code => (st.onSocketClose code).1

/-- The registry state reached from a fresh client by joining one room
with a valid token response. -/
def c2State : RacetimeClient :=
  ((RacetimeClient.init 0).joinRaceRoom "/ws/o/bot/u" 100
    (some ⟨"tok", 3600, "Bearer", "x"⟩)).1

/-- Witness fixtures for the cancelRace claim: a client whose credential
never expires during the scenario, a cancelled-status snapshot body, and
the intermediate states of the cancelRace pipeline. -/
def w9st : RacetimeClient :=
  { RacetimeClient.init 0 with authExpireTime := 1000000000000000 }

def w9d : RaceDetails := ⟨⟨"cancelled"⟩, "/ws/bot", 0, "r"⟩

def w9st1 : RacetimeClient :=
  (w9st.fetchRaceData "/r" 0 none (.okBody w9d)).1

def w9st2 : RacetimeClient :=
  (w9st1.joinRaceRoomAwaited "/ws/bot" 0 none .ready).1

def w9st4 : RacetimeClient :=
  ((w9st2.sendCancel "/ws/bot").fetchRaceData "/r" 5 none .notOk).1

/-! ## Helper lemmas -/

theorem mapGet_mapSet_self (k : String) (v : β) (l : List (String × β)) :
    mapGet k (mapSet k v l) = some v := by
  induction l with
  | nil => simp [mapGet, mapSet]
  | cons p rest ih =>
      obtain ⟨k2, v2⟩ := p
      by_cases h : k2 = k
      · simp [mapGet, mapSet, h]
      · simp [mapGet, mapSet, h, ih]

theorem mapGet_mapSet_isSome (k k2 : String) (v : β) (l : List (String × β))
    (h : (mapGet k2 l).isSome = true) :
    (mapGet k2 (mapSet k v l)).isSome = true := by
  induction l with
  | nil => simp [mapGet] at h
  | cons p rest ih =>
      obtain ⟨k3, v3⟩ := p
      by_cases hk : k3 = k
      · subst hk
        by_cases hkk : k3 = k2
        · simp [mapGet, mapSet, hkk]
        · simp only [mapGet, if_neg hkk] at h
          simp [mapGet, mapSet, hkk, h]
      · by_cases hkk : k3 = k2
        · subst hkk
          simp [mapGet, mapSet, hk]
        · simp only [mapGet, if_neg hkk] at h
          simp [mapGet, mapSet, hk, hkk, ih h]

theorem mapGet_mapUpdate (k k2 : String) (f : β → β) (l : List (String × β)) :
    mapGet k2 (mapUpdate k f l) =
      if k = k2 then (mapGet k2 l).map f else mapGet k2 l := by
  induction l with
  | nil => simp [mapGet, mapUpdate]
  | cons p rest ih =>
      obtain ⟨k3, v3⟩ := p
      by_cases hk : k3 = k
      · subst hk
        by_cases hk2 : k3 = k2
        · simp [mapGet, mapUpdate, hk2]
        · simp [mapGet, mapUpdate, hk2, ih]
      · by_cases hk2 : k3 = k2
        · subst hk2
          simp [mapGet, mapUpdate, hk, Ne.symm hk]
        · simp [mapGet, mapUpdate, hk, hk2, ih]

theorem ensureAuthValid_sockets (st : RacetimeClient) (now : Int)
    (resp : Option Credentials) :
    (st.ensureAuthValid now resp).1.sockets = st.sockets ∧
    (st.ensureAuthValid now resp).1.connections = st.connections := by
  unfold RacetimeClient.ensureAuthValid RacetimeClient.authorize
  split <;> cases resp <;> simp

theorem foldl_sendMessage_queue (ms : List RTAction) (w : WebSocketClient)
    (h : w.ready = false) :
    ms.foldl WebSocketClient.sendMessage w =
      { w with messageQueue := w.messageQueue ++ ms } := by
  induction ms generalizing w with
  | nil => simp
  | cons m rest ih =>
      have hsend : w.sendMessage m =
          { w with messageQueue := w.messageQueue ++ [m] } := by
        simp [WebSocketClient.sendMessage, h]
      simp only [List.foldl_cons, hsend]
      rw [ih ⟨w.ready, w.messageQueue ++ [m], w.sent⟩ h]
      simp

/-! ## Evaluation lemmas for handleMessage -/

theorem handleMessage_chat_delete (m : RTMessage)
    (h : m.type = RTMessageTypes.CHAT_DELETE) :
    handleMessage m = .ok [.chatDelete m] := by
  simp [handleMessage, h, RTMessageTypes.CHAT_DELETE]

theorem handleMessage_chat_dm (m : RTMessage)
    (h : m.type = RTMessageTypes.CHAT_DM) : handleMessage m = .ok [] := by
  simp [handleMessage, h, RTMessageTypes.CHAT_DELETE, RTMessageTypes.CHAT_DM]

theorem handleMessage_chat_history (m : RTMessage)
    (h : m.type = RTMessageTypes.CHAT_HISTORY) :
    handleMessage m = .ok [.chatHistory m] := by
  simp [handleMessage, h, RTMessageTypes.CHAT_DELETE, RTMessageTypes.CHAT_DM,
    RTMessageTypes.CHAT_HISTORY]

theorem handleMessage_chat_message (m : RTMessage)
    (h : m.type = RTMessageTypes.CHAT_MESSAGE) :
    handleMessage m = .ok [.chatMessage m] := by
  simp [handleMessage, h, RTMessageTypes.CHAT_DELETE, RTMessageTypes.CHAT_DM,
    RTMessageTypes.CHAT_HISTORY, RTMessageTypes.CHAT_MESSAGE]

theorem handleMessage_chat_pin (m : RTMessage)
    (h : m.type = RTMessageTypes.CHAT_PIN) :
    handleMessage m = .ok [.chatPin m] := by
  simp [handleMessage, h, RTMessageTypes.CHAT_DELETE, RTMessageTypes.CHAT_DM,
    RTMessageTypes.CHAT_HISTORY, RTMessageTypes.CHAT_MESSAGE,
    RTMessageTypes.CHAT_PIN]

theorem handleMessage_chat_purge (m : RTMessage)
    (h : m.type = RTMessageTypes.CHAT_PURGE) :
    handleMessage m = .ok [.chatPurge m] := by
  simp [handleMessage, h, RTMessageTypes.CHAT_DELETE, RTMessageTypes.CHAT_DM,
    RTMessageTypes.CHAT_HISTORY, RTMessageTypes.CHAT_MESSAGE,
    RTMessageTypes.CHAT_PIN, RTMessageTypes.CHAT_UNPIN,
    RTMessageTypes.CHAT_PURGE]

theorem handleMessage_rt_error (m : RTMessage)
    (h : m.type = RTMessageTypes.ERROR) :
    handleMessage m = .ok [.rtError m] := by
  simp [handleMessage, h, RTMessageTypes.CHAT_DELETE, RTMessageTypes.CHAT_DM,
    RTMessageTypes.CHAT_HISTORY, RTMessageTypes.CHAT_MESSAGE,
    RTMessageTypes.CHAT_PIN, RTMessageTypes.CHAT_UNPIN,
    RTMessageTypes.CHAT_PURGE, RTMessageTypes.ERROR]

theorem handleMessage_pong (m : RTMessage)
    (h : m.type = RTMessageTypes.PONG) : handleMessage m = .ok [] := by
  simp [handleMessage, h, RTMessageTypes.CHAT_DELETE, RTMessageTypes.CHAT_DM,
    RTMessageTypes.CHAT_HISTORY, RTMessageTypes.CHAT_MESSAGE,
    RTMessageTypes.CHAT_PIN, RTMessageTypes.CHAT_UNPIN,
    RTMessageTypes.CHAT_PURGE, RTMessageTypes.ERROR, RTMessageTypes.PONG]

theorem handleMessage_race_data (m : RTMessage)
    (h : m.type = RTMessageTypes.RACE_DATA) :
    handleMessage m = .ok [.raceData m] := by
  simp [handleMessage, h, RTMessageTypes.CHAT_DELETE, RTMessageTypes.CHAT_DM,
    RTMessageTypes.CHAT_HISTORY, RTMessageTypes.CHAT_MESSAGE,
    RTMessageTypes.CHAT_PIN, RTMessageTypes.CHAT_UNPIN,
    RTMessageTypes.CHAT_PURGE, RTMessageTypes.ERROR, RTMessageTypes.PONG,
    RTMessageTypes.RACE_DATA]

theorem handleMessage_race_renders (m : RTMessage)
    (h : m.type = RTMessageTypes.RACE_RENDERS) :
    handleMessage m = .ok [] := by
  simp [handleMessage, h, RTMessageTypes.CHAT_DELETE, RTMessageTypes.CHAT_DM,
    RTMessageTypes.CHAT_HISTORY, RTMessageTypes.CHAT_MESSAGE,
    RTMessageTypes.CHAT_PIN, RTMessageTypes.CHAT_UNPIN,
    RTMessageTypes.CHAT_PURGE, RTMessageTypes.ERROR, RTMessageTypes.PONG,
    RTMessageTypes.RACE_DATA, RTMessageTypes.RACE_RENDERS]

theorem handleMessage_unknown (m : RTMessage)
    (h : m.type ∉ knownMessageTypes) :
    handleMessage m = .error ("Unknown message type: " ++ m.type) := by
  simp only [knownMessageTypes, List.mem_cons, List.not_mem_nil, or_false,
    not_or] at h
  obtain ⟨h1, h2, h3, h4, h5, h6, h7, h8, h9, h10, h11⟩ := h
  simp [handleMessage, h1, h2, h3, h4, h5, h6, h7, h8, h9, h10, h11]

/-- Every successful dispatch yields one of the listed event lists. -/
theorem handleMessage_ok_cases (m : RTMessage) (evs : List TypedEvent)
    (h : handleMessage m = .ok evs) :
    evs = [] ∨ evs = [.chatDelete m] ∨ evs = [.chatHistory m] ∨
    evs = [.chatMessage m] ∨ evs = [.chatPin m] ∨ evs = [.chatPurge m] ∨
    evs = [.rtError m] ∨ evs = [.raceData m] := by
  by_cases hk : m.type ∈ knownMessageTypes
  · simp only [knownMessageTypes, List.mem_cons, List.not_mem_nil,
      or_false] at hk
    rcases hk with h1 | h1 | h1 | h1 | h1 | h1 | h1 | h1 | h1 | h1 | h1
    · rw [handleMessage_chat_delete m h1] at h
      simp only [Except.ok.injEq] at h
      subst h; tauto
    · rw [handleMessage_chat_dm m h1] at h
      simp only [Except.ok.injEq] at h
      subst h; tauto
    · rw [handleMessage_chat_history m h1] at h
      simp only [Except.ok.injEq] at h
      subst h; tauto
    · rw [handleMessage_chat_message m h1] at h
      simp only [Except.ok.injEq] at h
      subst h; tauto
    · rw [handleMessage_chat_pin m h1] at h
      simp only [Except.ok.injEq] at h
      subst h; tauto
    · rw [handleMessage_chat_pin m h1] at h
      simp only [Except.ok.injEq] at h
      subst h; tauto
    · rw [handleMessage_chat_purge m h1] at h
      simp only [Except.ok.injEq] at h
      subst h; tauto
    · rw [handleMessage_rt_error m h1] at h
      simp only [Except.ok.injEq] at h
      subst h; tauto
    · rw [handleMessage_pong m h1] at h
      simp only [Except.ok.injEq] at h
      subst h; tauto
    · rw [handleMessage_race_data m h1] at h
      simp only [Except.ok.injEq] at h
      subst h; tauto
    · rw [handleMessage_race_renders m h1] at h
      simp only [Except.ok.injEq] at h
      subst h; tauto
  · rw [handleMessage_unknown m hk] at h
    exact Except.noConfusion h

/-! ## Claim theorems for the inbound demultiplexer -/

/-- C3: every inbound frame is decoded once and dispatched by its type tag
to exactly one typed event carrying the frame unchanged, except that
chat.dm, pong and race.renders frames emit no typed event; a frame whose
type matches no known kind raises an error and emits nothing. -/
theorem C3_inbound_dispatch (m : RTMessage) :
    (m.type = RTMessageTypes.CHAT_DELETE →
      handleMessage m = .ok [.chatDelete m]) ∧
    (m.type = RTMessageTypes.CHAT_DM → handleMessage m = .ok []) ∧
    (m.type = RTMessageTypes.CHAT_HISTORY →
      handleMessage m = .ok [.chatHistory m]) ∧
    (m.type = RTMessageTypes.CHAT_MESSAGE →
      handleMessage m = .ok [.chatMessage m]) ∧
    (m.type = RTMessageTypes.CHAT_PIN →
      handleMessage m = .ok [.chatPin m]) ∧
    (m.type = RTMessageTypes.CHAT_PURGE →
      handleMessage m = .ok [.chatPurge m]) ∧
    (m.type = RTMessageTypes.ERROR → handleMessage m = .ok [.rtError m]) ∧
    (m.type = RTMessageTypes.PONG → handleMessage m = .ok []) ∧
    (m.type = RTMessageTypes.RACE_DATA →
      handleMessage m = .ok [.raceData m]) ∧
    (m.type = RTMessageTypes.RACE_RENDERS → handleMessage m = .ok []) ∧
    (m.type ∉ knownMessageTypes →
      handleMessage m = .error ("Unknown message type: " ++ m.type)) ∧
    (∀ evs, handleMessage m = .ok evs → evs.length ≤ 1) := by
  refine ⟨handleMessage_chat_delete m, handleMessage_chat_dm m,
    handleMessage_chat_history m, handleMessage_chat_message m,
    handleMessage_chat_pin m, handleMessage_chat_purge m,
    handleMessage_rt_error m, handleMessage_pong m,
    handleMessage_race_data m, handleMessage_race_renders m,
    handleMessage_unknown m, ?_⟩
  intro evs h
  rcases handleMessage_ok_cases m evs h with
    rfl | rfl | rfl | rfl | rfl | rfl | rfl | rfl <;> simp

/-- C3 witness: a chat.message frame yields exactly the chat message
event, a pong frame yields nothing, and an unknown kind raises. -/
theorem C3_witness :
    handleMessage ⟨"chat.message", "payload"⟩ =
      .ok [.chatMessage ⟨"chat.message", "payload"⟩] ∧
    handleMessage ⟨"pong", "x"⟩ = .ok [] ∧
    handleMessage ⟨"bogus.kind", "x"⟩ =
      .error ("Unknown message type: " ++ "bogus.kind") :=
  ⟨(C3_inbound_dispatch ⟨"chat.message", "payload"⟩).2.2.2.1 rfl,
   (C3_inbound_dispatch ⟨"pong", "x"⟩).2.2.2.2.2.2.2.1 rfl,
   (C3_inbound_dispatch ⟨"bogus.kind", "x"⟩).2.2.2.2.2.2.2.2.2.2.1
     (by decide)⟩

/-- C10: the pin and unpin kinds are declared with the same wire
discriminator, every frame carrying it is dispatched to the chat pin
event, and the chat unpin event is never emitted for any frame. -/
theorem C10_chat_unpin_never_emitted :
    RTMessageTypes.CHAT_UNPIN = RTMessageTypes.CHAT_PIN ∧
    (∀ m : RTMessage, m.type = RTMessageTypes.CHAT_PIN →
      handleMessage m = .ok [.chatPin m]) ∧
    (∀ (m m2 : RTMessage) (evs : List TypedEvent),
      handleMessage m = .ok evs → TypedEvent.chatUnpin m2 ∉ evs) := by
  refine ⟨rfl, handleMessage_chat_pin, ?_⟩
  intro m m2 evs h hmem
  rcases handleMessage_ok_cases m evs h with
    rfl | rfl | rfl | rfl | rfl | rfl | rfl | rfl <;> simp at hmem

/-- C10 witness: a frame with the shared chat.pin discriminator is
dispatched to the chat pin event, and the chat unpin event is not among
the emitted events. -/
theorem C10_witness :
    handleMessage ⟨"chat.pin", "p"⟩ =
      .ok [.chatPin ⟨"chat.pin", "p"⟩] ∧
    TypedEvent.chatUnpin ⟨"chat.pin", "p"⟩ ∉
      [TypedEvent.chatPin ⟨"chat.pin", "p"⟩] :=
  ⟨C10_chat_unpin_never_emitted.2.1 ⟨"chat.pin", "p"⟩ rfl,
   C10_chat_unpin_never_emitted.2.2 ⟨"chat.pin", "p"⟩ ⟨"chat.pin", "p"⟩
     [TypedEvent.chatPin ⟨"chat.pin", "p"⟩]
     (C10_chat_unpin_never_emitted.2.1 ⟨"chat.pin", "p"⟩ rfl)⟩

/-- C6: a send in the ready state transmits immediately, a send in the
not-ready state appends to the FIFO queue, the open transition flushes the
queue in order and clears it, and hence the transport observes any
sequence of pre-ready sends in the order they were issued. -/
theorem C6_send_fifo :
    (∀ (w : WebSocketClient) (m : RTAction), w.ready = true →
      w.sendMessage m = { w with sent := w.sent ++ [m] }) ∧
    (∀ (w : WebSocketClient) (m : RTAction), w.ready = false →
      w.sendMessage m = { w with messageQueue := w.messageQueue ++ [m] }) ∧
    (∀ w : WebSocketClient,
      w.onOpen.ready = true ∧ w.onOpen.sent = w.sent ++ w.messageQueue ∧
      w.onOpen.messageQueue = []) ∧
    (∀ ms : List RTAction,
      (WebSocketClient.onOpen
        (ms.foldl WebSocketClient.sendMessage WebSocketClient.new)).sent =
        ms) := by
  refine ⟨?_, ?_, ?_, ?_⟩
  · intro w m h
    simp [WebSocketClient.sendMessage, h]
  · intro w m h
    simp [WebSocketClient.sendMessage, h]
  · intro w
    simp [WebSocketClient.onOpen]
  · intro ms
    rw [foldl_sendMessage_queue ms WebSocketClient.new rfl]
    simp [WebSocketClient.onOpen, WebSocketClient.new]

/-- C6 witness: with two actions sent before the open event, the transport
log after the flush is exactly those two actions in order, a ready-state
send transmits at once, and a not-ready send queues. -/
theorem C6_witness :
    (WebSocketClient.onOpen
      ([⟨"message", some "a"⟩, ⟨"cancel", none⟩].foldl
        WebSocketClient.sendMessage WebSocketClient.new)).sent =
      [⟨"message", some "a"⟩, ⟨"cancel", none⟩] ∧
    WebSocketClient.sendMessage ⟨true, [], []⟩ ⟨"ping", none⟩ =
      ⟨true, [], [⟨"ping", none⟩]⟩ ∧
    WebSocketClient.sendMessage ⟨false, [], []⟩ ⟨"ping", none⟩ =
      ⟨false, [⟨"ping", none⟩], []⟩ :=
  ⟨C6_send_fifo.2.2.2 [⟨"message", some "a"⟩, ⟨"cancel", none⟩],
   C6_send_fifo.1 ⟨true, [], []⟩ ⟨"ping", none⟩ rfl,
   C6_send_fifo.2.1 ⟨false, [], []⟩ ⟨"ping", none⟩ rfl⟩

/-! ## Claim theorems for the credential manager -/

/-- C5: the credential gate performs no token exchange when now is before
the stored expiry and exactly one exchange otherwise; a successful
exchange replaces the stored credential wholesale and sets the expiry to
now plus expires_in seconds, a future instant whenever expires_in is
positive; a failed exchange emits an auth error event and raises. -/
theorem C5_credential_gate (st : RacetimeClient) (now : Int)
    (resp : Option Credentials) :
    (now < st.authExpireTime →
      st.ensureAuthValid now resp = (st, .ok ())) ∧
    (st.authExpireTime ≤ now →
      (st.ensureAuthValid now resp).1.tokenExchanges =
        st.tokenExchanges + 1) ∧
    (st.authExpireTime ≤ now → ∀ c, resp = some c →
      (st.ensureAuthValid now resp).1.auth = some c ∧
      (st.ensureAuthValid now resp).1.authExpireTime =
        now + c.expires_in * 1000 ∧
      (0 < c.expires_in →
        now < (st.ensureAuthValid now resp).1.authExpireTime) ∧
      (st.ensureAuthValid now resp).2 = .ok ()) ∧
    (st.authExpireTime ≤ now → resp = none →
      (st.ensureAuthValid now resp).1.emitted =
        st.emitted ++ ["auth error"] ∧
      (st.ensureAuthValid now resp).2 =
        .error "Unable to refresh access_token!") := by
  refine ⟨?_, ?_, ?_, ?_⟩
  · intro h
    simp [RacetimeClient.ensureAuthValid, not_le.mpr h]
  · intro h
    cases resp <;>
      simp [RacetimeClient.ensureAuthValid, RacetimeClient.authorize, h]
  · intro h c hc
    subst hc
    refine ⟨?_, ?_, ?_, ?_⟩ <;>
      simp [RacetimeClient.ensureAuthValid, RacetimeClient.authorize, h]
  · intro h hc
    subst hc
    constructor <;>
      simp [RacetimeClient.ensureAuthValid, RacetimeClient.authorize, h]

/-- C5 witness: with an expired credential at instant 5, a successful
exchange stores the new credential and a future expiry while a failed one
emits the auth error event and raises; with an unexpired credential the
gate is the identity. -/
theorem C5_witness :
    ((RacetimeClient.init 0).ensureAuthValid 5
        (some ⟨"tok", 3600, "Bearer", "s"⟩)).1.auth =
      some ⟨"tok", 3600, "Bearer", "s"⟩ ∧
    ((RacetimeClient.init 0).ensureAuthValid 5
        (some ⟨"tok", 3600, "Bearer", "s"⟩)).1.authExpireTime =
      5 + 3600 * 1000 ∧
    (5 : Int) <
      ((RacetimeClient.init 0).ensureAuthValid 5
        (some ⟨"tok", 3600, "Bearer", "s"⟩)).1.authExpireTime ∧
    ((RacetimeClient.init 0).ensureAuthValid 5
        (some ⟨"tok", 3600, "Bearer", "s"⟩)).1.tokenExchanges = 0 + 1 ∧
    ((RacetimeClient.init 0).ensureAuthValid 5 none).1.emitted =
      [] ++ ["auth error"] ∧
    ((RacetimeClient.init 0).ensureAuthValid 5 none).2 =
      .error "Unable to refresh access_token!" ∧
    (RacetimeClient.init 99).ensureAuthValid 5 none =
      (RacetimeClient.init 99, .ok ()) := by
  have hs := C5_credential_gate (RacetimeClient.init 0) 5
    (some ⟨"tok", 3600, "Bearer", "s"⟩)
  have hf := C5_credential_gate (RacetimeClient.init 0) 5 none
  have hv := C5_credential_gate (RacetimeClient.init 99) 5 none
  have h1 := hs.2.2.1 (by decide) ⟨"tok", 3600, "Bearer", "s"⟩ rfl
  have h2 := hf.2.2.2 (by decide) rfl
  exact ⟨h1.1, h1.2.1, h1.2.2.1 (by decide), hs.2.1 (by decide),
    h2.1, h2.2, hv.1 (by decide)⟩

/-! ## Claim theorems for the snapshot cache -/

theorem fetchRaceData_fresh (st : RacetimeClient) (url : String) (now : Int)
    (a : Option Credentials) (r : HttpRaceResponse) (d : RaceDetails)
    (hfresh : freshEntry st.raceDetailsCache url now = some d) :
    st.fetchRaceData url now a r = (st, .ok (some d)) := by
  simp [RacetimeClient.fetchRaceData, hfresh]

theorem fetchRaceData_store (st : RacetimeClient) (url : String) (now : Int)
    (a : Option Credentials) (d : RaceDetails)
    (hfresh : freshEntry st.raceDetailsCache url now = none)
    (hok : (st.ensureAuthValid now a).2 = .ok ()) :
    (st.fetchRaceData url now a (.okBody d)).2 =
      .ok (some { d with last_updated := now }) ∧
    mapGet url (st.fetchRaceData url now a (.okBody d)).1.raceDetailsCache =
      some { d with last_updated := now } ∧
    (st.fetchRaceData url now a (.okBody d)).1.snapshotGets =
      st.snapshotGets + 1 := by
  by_cases hA : st.authExpireTime ≤ now <;> cases a <;>
    simp [RacetimeClient.ensureAuthValid, RacetimeClient.authorize, hA]
      at hok <;>
    refine ⟨?_, ?_, ?_⟩ <;>
    simp [RacetimeClient.fetchRaceData, RacetimeClient.ensureAuthValid,
      RacetimeClient.authorize, hA, hfresh, mapGet_mapSet_self]

/-- C4: a get returns the cached entry with no state change and no network
call exactly when the entry is younger than 30 seconds; a stale or missing
entry leads to one snapshot GET (or to a raise when the credential refresh
fails, in which case no GET is issued), a successful GET is stamped with
now, stored and returned, and a second get inside the freshness window of
a stored result returns it from the cache with no further network call. -/
theorem C4_snapshot_cache (st : RacetimeClient) (url : String) (now : Int)
    (authResp : Option Credentials) (resp : HttpRaceResponse) :
    (∀ d, mapGet url st.raceDetailsCache = some d →
      (now - d.last_updated < 1000 * 30 →
        st.fetchRaceData url now authResp resp = (st, .ok (some d))) ∧
      (1000 * 30 ≤ now - d.last_updated →
        freshEntry st.raceDetailsCache url now = none)) ∧
    (freshEntry st.raceDetailsCache url now = none →
      (st.fetchRaceData url now authResp resp).1.snapshotGets =
          st.snapshotGets + 1 ∨
      ((st.fetchRaceData url now authResp resp).2 =
          .error "Unable to refresh access_token!" ∧
        (st.fetchRaceData url now authResp resp).1.snapshotGets =
          st.snapshotGets)) ∧
    (freshEntry st.raceDetailsCache url now = none →
      (st.ensureAuthValid now authResp).2 = .ok () →
      (st.fetchRaceData url now authResp resp).1.snapshotGets =
        st.snapshotGets + 1 ∧
      (∀ d, resp = .okBody d →
        (st.fetchRaceData url now authResp resp).2 =
          .ok (some { d with last_updated := now }) ∧
        mapGet url
            (st.fetchRaceData url now authResp resp).1.raceDetailsCache =
          some { d with last_updated := now })) ∧
    (∀ d now2 authResp2 resp2,
      freshEntry st.raceDetailsCache url now = none →
      (st.ensureAuthValid now authResp).2 = .ok () →
      resp = .okBody d →
      now2 - now < 1000 * 30 →
      (st.fetchRaceData url now authResp resp).1.fetchRaceData url now2
          authResp2 resp2 =
        ((st.fetchRaceData url now authResp resp).1,
          .ok (some { d with last_updated := now }))) := by
  refine ⟨?_, ?_, ?_, ?_⟩
  · intro d hd
    constructor
    · intro hlt
      have hfresh : freshEntry st.raceDetailsCache url now = some d := by
        simp only [freshEntry, hd]
        rw [if_pos (by omega)]
      exact fetchRaceData_fresh st url now authResp resp d hfresh
    · intro hge
      simp only [freshEntry, hd]
      rw [if_neg (by omega)]
  · intro hfresh
    by_cases hA : st.authExpireTime ≤ now <;> cases authResp <;>
      cases resp <;>
      simp [RacetimeClient.fetchRaceData, RacetimeClient.ensureAuthValid,
        RacetimeClient.authorize, hA, hfresh]
  · intro hfresh hok
    constructor
    · by_cases hA : st.authExpireTime ≤ now <;> cases authResp <;>
        simp [RacetimeClient.ensureAuthValid, RacetimeClient.authorize, hA]
          at hok <;>
        cases resp <;>
        simp [RacetimeClient.fetchRaceData, RacetimeClient.ensureAuthValid,
          RacetimeClient.authorize, hA, hfresh]
    · intro d hr
      subst hr
      have h := fetchRaceData_store st url now authResp d hfresh hok
      exact ⟨h.1, h.2.1⟩
  · intro d now2 authResp2 resp2 hfresh hok hr hwin
    subst hr
    have hstore := fetchRaceData_store st url now authResp d hfresh hok
    have hfresh2 : freshEntry
        (st.fetchRaceData url now authResp (.okBody d)).1.raceDetailsCache
        url now2 = some { d with last_updated := now } := by
      simp only [freshEntry, hstore.2.1]
      rw [if_pos (show now + 1000 * 30 > now2 by omega)]
    exact fetchRaceData_fresh _ url now2 authResp2 resp2 _ hfresh2

/-- C4 witness: with an empty cache at instant 0 and a valid credential,
a fetch issues one GET and stores the stamped body, and a second get at
instant 5000 returns the stored entry without touching the network. -/
theorem C4_witness :
    freshEntry (RacetimeClient.init 50).raceDetailsCache "/r" 0 = none ∧
    ((RacetimeClient.init 50).ensureAuthValid 0 none).2 = .ok () ∧
    ((RacetimeClient.init 50).fetchRaceData "/r" 0 none
        (.okBody ⟨⟨"open"⟩, "/ws/bot", 7, "x"⟩)).1.snapshotGets = 0 + 1 ∧
    (((RacetimeClient.init 50).fetchRaceData "/r" 0 none
        (.okBody ⟨⟨"open"⟩, "/ws/bot", 7, "x"⟩)).1.fetchRaceData "/r" 5000
        none .notOk) =
      (((RacetimeClient.init 50).fetchRaceData "/r" 0 none
          (.okBody ⟨⟨"open"⟩, "/ws/bot", 7, "x"⟩)).1,
        .ok (some ⟨⟨"open"⟩, "/ws/bot", 0, "x"⟩)) := by
  have h := C4_snapshot_cache (RacetimeClient.init 50) "/r" 0 none
    (.okBody ⟨⟨"open"⟩, "/ws/bot", 7, "x"⟩)
  refine ⟨rfl, rfl, ?_, ?_⟩
  · exact (h.2.2.1 rfl rfl).1
  · exact h.2.2.2 ⟨⟨"open"⟩, "/ws/bot", 7, "x"⟩ 5000 none .notOk rfl rfl
      rfl (by decide)

/-- C8: when the cache cannot serve the URL and the credential is usable,
a non-OK response makes fetchRaceData return null rather than raise, and
an OK response whose body fails to decode is logged and also yields null
rather than a raise. -/
theorem C8_fetch_soft_failures (st : RacetimeClient) (url : String)
    (now : Int) (authResp : Option Credentials)
    (hfresh : freshEntry st.raceDetailsCache url now = none)
    (hok : (st.ensureAuthValid now authResp).2 = .ok ()) :
    (st.fetchRaceData url now authResp .notOk).2 = .ok none ∧
    (st.fetchRaceData url now authResp .badBody).2 = .ok none ∧
    (st.fetchRaceData url now authResp .badBody).1.decodeFailures =
      st.decodeFailures + 1 := by
  by_cases hA : st.authExpireTime ≤ now <;> cases authResp <;>
    simp [RacetimeClient.ensureAuthValid, RacetimeClient.authorize, hA]
      at hok <;>
    refine ⟨?_, ?_, ?_⟩ <;>
    simp [RacetimeClient.fetchRaceData, RacetimeClient.ensureAuthValid,
      RacetimeClient.authorize, hA, hfresh]

/-- C8 witness: a 404 response and an undecodable body both yield a null
result, never a raise, and the decode failure is logged once. -/
theorem C8_witness :
    ((RacetimeClient.init 50).fetchRaceData "/r" 0 none .notOk).2 =
      .ok none ∧
    ((RacetimeClient.init 50).fetchRaceData "/r" 0 none .badBody).2 =
      .ok none ∧
    ((RacetimeClient.init 50).fetchRaceData "/r" 0 none
        .badBody).1.decodeFailures = 0 + 1 :=
  C8_fetch_soft_failures (RacetimeClient.init 50) "/r" 0 none rfl rfl

/-! ## Claim theorems for the session registry -/

theorem fetchRaceData_sockets (st : RacetimeClient) (url : String)
    (now : Int) (a : Option Credentials) (r : HttpRaceResponse) :
    (st.fetchRaceData url now a r).1.sockets = st.sockets := by
  cases hF : freshEntry st.raceDetailsCache url now <;>
    by_cases hA : st.authExpireTime ≤ now <;> cases a <;> cases r <;>
    simp [RacetimeClient.fetchRaceData, RacetimeClient.ensureAuthValid,
      RacetimeClient.authorize, hA, hF]

theorem joinRaceRoom_sockets (st : RacetimeClient) (u2 : String)
    (now : Int) (a : Option Credentials) :
    (st.joinRaceRoom u2 now a).1.sockets = st.sockets ∨
    (st.joinRaceRoom u2 now a).1.sockets =
      mapSet u2 WebSocketClient.new st.sockets := by
  by_cases hg : (mapGet u2 st.sockets).isSome = false <;>
    by_cases hA : st.authExpireTime ≤ now <;> cases a <;>
    simp [RacetimeClient.joinRaceRoom, RacetimeClient.ensureAuthValid,
      RacetimeClient.authorize, hA, hg]

theorem mapOption_isSome (f : α → γ) (o : Option α) :
    (Option.map f o).isSome = o.isSome := by
  cases o <;> rfl

theorem joinRaceRoom_ok_session (st : RacetimeClient) (url : String)
    (now : Int) (a : Option Credentials) (st2 : RacetimeClient)
    (j : JoinOutcome) (h : st.joinRaceRoom url now a = (st2, .ok j)) :
    (mapGet url st2.sockets).isSome = true := by
  by_cases hg : (mapGet url st.sockets).isSome = false
  · by_cases hA : st.authExpireTime ≤ now <;> cases a <;>
      simp [RacetimeClient.joinRaceRoom, RacetimeClient.ensureAuthValid,
        RacetimeClient.authorize, hA, hg] at h <;>
      (rw [← h.1]; simp [mapGet_mapSet_self])
  · rw [RacetimeClient.joinRaceRoom, if_neg hg] at h
    have h1 : st = st2 := congrArg Prod.fst h
    rw [← h1]
    cases hb : (mapGet url st.sockets).isSome with
    | false => exact absurd hb hg
    | true => rfl

theorem joinRaceRoomAwaited_session (st : RacetimeClient) (url : String)
    (now : Int) (a : Option Credentials) (conn : ConnectOutcome)
    (st2 : RacetimeClient) (b : Bool)
    (h : st.joinRaceRoomAwaited url now a conn = (st2, .ok b)) :
    (mapGet url st2.sockets).isSome = true := by
  unfold RacetimeClient.joinRaceRoomAwaited at h
  rcases hJ : st.joinRaceRoom url now a with ⟨stJ, rJ⟩
  rw [hJ] at h
  cases rJ with
  | error e => exact absurd (congrArg Prod.snd h) (by simp)
  | ok j =>
    have hsess : (mapGet url stJ.sockets).isSome = true :=
      joinRaceRoom_ok_session st url now a stJ j hJ
    cases j with
    | alreadyJoined =>
        have h1 : stJ = st2 := congrArg Prod.fst h
        rw [← h1]
        exact hsess
    | created =>
      cases conn with
      | ready =>
          have h1 : ({ stJ with
              sockets :=
                mapUpdate url WebSocketClient.onOpen stJ.sockets } :
              RacetimeClient) = st2 :=
            congrArg Prod.fst h
          rw [← h1]
          simp only [mapGet_mapUpdate, eq_self_iff_true, if_true,
            mapOption_isSome]
          exact hsess
      | socketError e => exact absurd (congrArg Prod.snd h) (by simp)

/-- C7: joining an endpoint that already has a session resolves true at
once with no state change and no new connection; joining a fresh endpoint
under a usable credential creates exactly one session and one connection,
and the pending join resolves true on the first ready event and rejects
on the first socket error. -/
theorem C7_join_idempotent (st : RacetimeClient) (url : String) (now : Int)
    (authResp : Option Credentials) :
    ((mapGet url st.sockets).isSome = true →
      st.joinRaceRoom url now authResp = (st, .ok .alreadyJoined) ∧
      st.joinRaceRoomAwaited url now authResp .ready = (st, .ok true)) ∧
    ((mapGet url st.sockets).isSome = false →
      (st.ensureAuthValid now authResp).2 = .ok () →
      (st.joinRaceRoom url now authResp).2 = .ok .created ∧
      (st.joinRaceRoom url now authResp).1.connections =
        st.connections + 1 ∧
      mapGet url (st.joinRaceRoom url now authResp).1.sockets =
        some WebSocketClient.new ∧
      st.joinRaceRoomAwaited url now authResp .ready =
        ({ (st.joinRaceRoom url now authResp).1 with
            sockets := mapUpdate url WebSocketClient.onOpen
              (st.joinRaceRoom url now authResp).1.sockets }, .ok true) ∧
      (∀ e, st.joinRaceRoomAwaited url now authResp (.socketError e) =
        ((st.joinRaceRoom url now authResp).1, .error e))) := by
  constructor
  · intro h
    have hj : st.joinRaceRoom url now authResp = (st, .ok .alreadyJoined) := by
      simp [RacetimeClient.joinRaceRoom, h]
    exact ⟨hj, by simp [RacetimeClient.joinRaceRoomAwaited, hj]⟩
  · intro hg hok
    have hj : st.joinRaceRoom url now authResp =
        ({ (st.ensureAuthValid now authResp).1 with
            sockets := mapSet url WebSocketClient.new
              (st.ensureAuthValid now authResp).1.sockets,
            connections :=
              (st.ensureAuthValid now authResp).1.connections + 1 },
          .ok .created) := by
      by_cases hA : st.authExpireTime ≤ now <;> cases authResp <;>
        simp [RacetimeClient.ensureAuthValid, RacetimeClient.authorize, hA]
          at hok <;>
        simp [RacetimeClient.joinRaceRoom, RacetimeClient.ensureAuthValid,
          RacetimeClient.authorize, hA, hg]
    have hpres := ensureAuthValid_sockets st now authResp
    refine ⟨by rw [hj], ?_, ?_, ?_, ?_⟩
    · rw [hj]
      exact congrArg (fun n => n + 1) hpres.2
    · rw [hj]
      simp [mapGet_mapSet_self]
    · simp [RacetimeClient.joinRaceRoomAwaited, hj]
    · intro e
      simp [RacetimeClient.joinRaceRoomAwaited, hj]

/-- C7 witness: a second join on an endpoint with a live session returns
true immediately and leaves the state untouched, while a first join on a
fresh endpoint creates the one session and resolves on ready. -/
theorem C7_witness :
    ({ RacetimeClient.init 0 with
        sockets := [("/ws/u", WebSocketClient.new)],
        authExpireTime := 10 } : RacetimeClient).joinRaceRoom "/ws/u" 5
        none =
      ({ RacetimeClient.init 0 with
          sockets := [("/ws/u", WebSocketClient.new)],
          authExpireTime := 10 }, .ok .alreadyJoined) ∧
    (({ RacetimeClient.init 0 with authExpireTime := 10 } :
        RacetimeClient).joinRaceRoom "/ws/u" 5 none).2 = .ok .created ∧
    (({ RacetimeClient.init 0 with authExpireTime := 10 } :
        RacetimeClient).joinRaceRoom "/ws/u" 5 none).1.connections =
      0 + 1 ∧
    mapGet "/ws/u"
        (({ RacetimeClient.init 0 with authExpireTime := 10 } :
          RacetimeClient).joinRaceRoom "/ws/u" 5 none).1.sockets =
      some WebSocketClient.new :=
  have h2 := C7_join_idempotent
    { RacetimeClient.init 0 with authExpireTime := 10 } "/ws/u" 5 none
  ⟨(C7_join_idempotent
      { RacetimeClient.init 0 with
          sockets := [("/ws/u", WebSocketClient.new)],
          authExpireTime := 10 } "/ws/u" 5 none).1 (by decide) |>.1,
   (h2.2 rfl rfl).1, (h2.2 rfl rfl).2.1, (h2.2 rfl rfl).2.2.1⟩

/-- C1: on an abnormal close code the installed close handler warns and
attempts to call a reconnect method on the session, but the class
WebSocketClient neither defines nor inherits such a method, so the call
raises a TypeError and no reconnection is performed; on a normal close
code the handler does nothing. -/
theorem C1_reconnect_method_missing :
    closeHandlerAction 1006 = .methodCall "reconnect" ∧
    closeHandlerAction 1001 = .methodCall "reconnect" ∧
    webSocketClientHasMethod "reconnect" = false ∧
    closeHandlerAction 1000 = .noop ∧
    closeHandlerAction 994 = .noop := by
  refine ⟨by decide, by decide, by decide, by decide, by decide⟩

/-- C2 counterexample: in the reachable state holding one joined session,
a normal closure with code 1000 leaves the sockets mapping and the
session queue exactly as they were, so the normally closed session does
remain in the race-URL-to-session mapping. -/
theorem C2_counterexample :
    (mapGet "/ws/o/bot/u" c2State.sockets).isSome = true ∧
    (c2State.onSocketClose 1000).1 = c2State ∧
    (mapGet "/ws/o/bot/u"
      (c2State.onSocketClose 1000).1.sockets).isSome = true := by
  refine ⟨by decide, rfl, by decide⟩

/-- C2 amended: a closure event, normal or abnormal, changes neither the
registry mapping nor any session queue, and more generally no sequence of
client operations ever removes a session from the mapping. -/
theorem C2_amended_no_unregister :
    (∀ (st : RacetimeClient) (code : Int),
      (st.onSocketClose code).1 = st) ∧
    (∀ (st : RacetimeClient) (ops : List ClientOp) (url : String),
      (mapGet url st.sockets).isSome = true →
      (mapGet url
        (ops.foldl RacetimeClient.stepClient st).sockets).isSome = true) := by
  constructor
  · intro st code
    rfl
  · intro st ops
    induction ops generalizing st with
    | nil => intro url h; exact h
    | cons op rest ih =>
      intro url h
      simp only [List.foldl_cons]
      refine ih (st.stepClient op) url ?_
      cases op with
      | join u2 now a =>
          rcases joinRaceRoom_sockets st u2 now a with hs | hs
          · simpa [RacetimeClient.stepClient, hs] using h
          · simp only [RacetimeClient.stepClient, hs]
            exact mapGet_mapSet_isSome u2 url WebSocketClient.new
              st.sockets h
      | fetchRace u2 now a r =>
          simpa [RacetimeClient.stepClient,
            fetchRaceData_sockets st u2 now a r] using h
      | socketOpen u2 =>
          simp only [RacetimeClient.stepClient, mapGet_mapUpdate]
          split
          · rw [mapOption_isSome]
            exact h
          · exact h
      | socketSend u2 m =>
          simp only [RacetimeClient.stepClient, mapGet_mapUpdate]
          split
          · rw [mapOption_isSome]
            exact h
          · exact h
      | socketClose code =>
          exact h

/-- C2 amended witness: after joining a room and then observing a normal
closure, the session is still found in the mapping. -/
theorem C2_amended_witness :
    (mapGet "/ws/o/bot/u"
      ([ClientOp.socketClose 1000].foldl RacetimeClient.stepClient
        c2State).sockets).isSome = true :=
  C2_amended_no_unregister.2 c2State [ClientOp.socketClose 1000]
    "/ws/o/bot/u" (by decide)

/-! ## Claim theorems for cancelRace -/

/-- C9: cancelRace first fetches the snapshot to discover the socket
endpoint, joins that room, delivers a cancel command to that session via
sendMessage, then re-fetches the snapshot through the cache and returns
true exactly when the re-fetched snapshot carries the cancelled status. -/
theorem C9_cancelRace (st : RacetimeClient) (raceUrl : String)
    (now1 now2 : Int) (aR1 aRJ aR2 : Option Credentials)
    (r1 r2 : HttpRaceResponse) (conn : ConnectOutcome)
    (st1 st2 st4 : RacetimeClient) (d1 d2 : RaceDetails) (b : Bool)
    (h1 : st.fetchRaceData raceUrl now1 aR1 r1 = (st1, .ok (some d1)))
    (h2 : st1.joinRaceRoomAwaited d1.websocket_bot_url now1 aRJ conn =
      (st2, .ok b))
    (h3 : (st2.sendCancel d1.websocket_bot_url).fetchRaceData raceUrl now2
      aR2 r2 = (st4, .ok (some d2))) :
    st.cancelRace raceUrl now1 aR1 r1 aRJ conn now2 aR2 r2 =
      (st4, .ok (d2.status.value == RaceStatusText.CANCELLED)) ∧
    ((st.cancelRace raceUrl now1 aR1 r1 aRJ conn now2 aR2 r2).2 =
        .ok true ↔ d2.status.value = RaceStatusText.CANCELLED) ∧
    (∃ w, mapGet d1.websocket_bot_url st2.sockets = some w ∧
      mapGet d1.websocket_bot_url
          (st2.sendCancel d1.websocket_bot_url).sockets =
        some (w.sendMessage
          { action := RTPacketTypes.CANCEL, data := none })) := by
  have hc : st.cancelRace raceUrl now1 aR1 r1 aRJ conn now2 aR2 r2 =
      (st4, .ok (d2.status.value == RaceStatusText.CANCELLED)) := by
    simp [RacetimeClient.cancelRace, h1, h2, h3]
  refine ⟨hc, ?_, ?_⟩
  · rw [hc]
    simp
  · have hs := joinRaceRoomAwaited_session st1 d1.websocket_bot_url now1
      aRJ conn st2 b h2
    rcases hw : mapGet d1.websocket_bot_url st2.sockets with _ | w
    · rw [hw] at hs
      exact Bool.noConfusion hs
    · refine ⟨w, rfl, ?_⟩
      simp [RacetimeClient.sendCancel, mapGet_mapUpdate, hw]

/-- C9 witness: a concrete run over a snapshot already in cancelled state,
through fetch, join, cancel delivery and the cached re-fetch, returns
true, and the queued cancel command is present on the joined session. -/
theorem C9_witness :
    w9st.cancelRace "/r" 0 none (.okBody w9d) none .ready 5 none .notOk =
      (w9st4, .ok (w9d.status.value == RaceStatusText.CANCELLED)) ∧
    ((w9st.cancelRace "/r" 0 none (.okBody w9d) none .ready 5 none
        .notOk).2 = .ok true ↔
      w9d.status.value = RaceStatusText.CANCELLED) ∧
    (∃ w, mapGet "/ws/bot" w9st2.sockets = some w ∧
      mapGet "/ws/bot" (w9st2.sendCancel "/ws/bot").sockets =
        some (w.sendMessage
          { action := RTPacketTypes.CANCEL, data := none })) :=
  C9_cancelRace w9st "/r" 0 5 none none none (.okBody w9d) .notOk .ready
    w9st1 w9st2 w9st4 w9d w9d true rfl rfl rfl

end Rtgg
